import Mathlib

/-!
Verification of the deal-monitoring and purchase-execution pipeline of the
pokemon auto-purchase repository, against its natural-language specification.

The definitions below are shallow embeddings of the JavaScript source:
  * `src/src/scrapers/scraperManager.js` (result cache, decision guard,
    auto-purchase trigger, tier ticks),
  * `src/src/purchaser/basePurchaser.js` (BasePurchaser cancellation and the
    PurchaseManager state machine: processPendingPurchases, processPurchase,
    handlePurchaseError, retryFailedPurchases, cancelPurchase),
  * `src/src/purchaser/automatedPurchaseBot.js` (executeAutomatedPurchase,
    getMarketPrice, simulateMarketData),
  * the mongoose `Purchase` and `SKU` schemas (field defaults: status
    `pending`, attemptNumber 1, maxAttempts 3).
Timestamps are integers (milliseconds), prices are rationals, and JavaScript
truthiness of a nullable price is modelled explicitly.
-/

namespace Pokemon

/-- Retailer names, from the `website.name` enum of the mongoose schemas. -/
inductive Website
  | target
  | bestbuy
  | walmart
  | samsclub
  | gamestop
  | costco
  | pokemoncenter
  deriving DecidableEq, Repr

/-- Purchase status values, from the `status` enum of the Purchase schema. -/
inductive PStatus
  | pending
  | processing
  | success
  | failed
  | cancelled
  deriving DecidableEq, Repr

/-- Character strings, modelled as lists of characters so that the cache-key
join/split logic of scraperManager.js can be embedded directly. -/
abbrev Str := List Char

/-- One entry of a Purchase's `errors` array (message, timestamp, errorCode,
severity), from the Purchase schema. -/
structure ErrorRecord where
  message : Str
  timestamp : Int
  errorCode : Str
  severity : Str
  deriving DecidableEq, Repr

/-- The `purchaseSettings` sub-document of the SKU schema. -/
structure PurchaseSettings where
  maxQuantity : Nat
  autoPurchase : Bool
  requireConfirmation : Bool
  deriving DecidableEq, Repr

/-- The fields of a SKU (tracked item) read by the scraping/purchase pipeline,
from the SKU schema. -/
structure SKU where
  id : Str
  targetPrice : ℚ
  maxPrice : ℚ
  purchaseSettings : PurchaseSettings
  deriving DecidableEq, Repr

/-- The outcome of one scrape of one product page, as produced by the
site scrapers and consumed by `ScraperManager.processScrapingResult`:
`success`, `price` (null when extraction failed) and `inStock`. -/
structure ScrapeResult where
  success : Bool
  price : Option ℚ
  inStock : Bool
  deriving DecidableEq, Repr

/-- A Purchase ledger entry: the fields of the Purchase schema that the
executor state machine reads or writes (`attemptInfo` is flattened). -/
structure Purchase where
  skuId : Str
  website : Website
  price : ℚ
  quantity : Nat
  totalAmount : ℚ
  status : PStatus
  attemptNumber : Nat
  lastAttempt : Int
  maxAttempts : Nat
  errors : List ErrorRecord
  deriving DecidableEq, Repr

/-- A freshly saved Purchase document: explicit fields as set by
`ScraperManager.triggerAutoPurchase`, remaining fields filled by the schema
defaults (`status: pending`, `attemptNumber: 1`, `lastAttempt: Date.now`,
`maxAttempts: 3`, empty `errors`). -/
def newPurchase (skuId : Str) (w : Website) (price : ℚ) (quantity : Nat)
    (now : Int) : Purchase :=
  { skuId := skuId
    website := w
    price := price
    quantity := quantity
    totalAmount := price * quantity
    status := .pending
    attemptNumber := 1
    lastAttempt := now
    maxAttempts := 3
    errors := [] }

/-! ## Decision guard (scraperManager.js, processScrapingResult)

`scrapeSingleProduct` forwards a result to `processScrapingResult` only when
`result.success`.  There the guard is
`if (result.price && result.price <= sku.targetPrice && result.inStock)`,
and inside it `if (sku.purchaseSettings.autoPurchase &&
!sku.purchaseSettings.requireConfirmation)` calls `triggerAutoPurchase`.
`result.price` is a JavaScript truthiness test: it is false both for a null
price and for a price equal to 0. -/

/-- The price/stock guard of `processScrapingResult`:
`result.price && result.price <= sku.targetPrice && result.inStock`. -/
def priceMeetsTargetCheck (sku : SKU) (r : ScrapeResult) : Bool :=
  match r.price with
  | none => false
  | some p => decide (p ≠ 0) && decide (p ≤ sku.targetPrice) && r.inStock

/-- The settings guard of `processScrapingResult`:
`sku.purchaseSettings.autoPurchase && !sku.purchaseSettings.requireConfirmation`. -/
def autoPurchaseGate (sku : SKU) : Bool :=
  sku.purchaseSettings.autoPurchase && !sku.purchaseSettings.requireConfirmation

/-- The end-to-end condition under which a scrape of `sku` leads to
`triggerAutoPurchase`: the `result.success` test of `scrapeSingleProduct`
composed with the two nested guards of `processScrapingResult`. -/
def triggersAutoPurchase (sku : SKU) (r : ScrapeResult) : Bool :=
  r.success && priceMeetsTargetCheck sku r && autoPurchaseGate sku

/-- Embedding of `ScraperManager.triggerAutoPurchase`: unconditionally constructs a new
Purchase from the scraping result and saves it to the ledger.  The source
performs no lookup of existing purchases for the same (sku, website) pair. -/
def triggerAutoPurchase (ledger : List Purchase) (sku : SKU) (w : Website)
    (price : ℚ) (now : Int) : List Purchase :=
  ledger ++ [newPurchase sku.id w price sku.purchaseSettings.maxQuantity now]

/-- Ledger effect of `processScrapingResult` (the two nested guards around the
`triggerAutoPurchase` call). -/
def processScrapingResultLedger (ledger : List Purchase) (sku : SKU)
    (w : Website) (r : ScrapeResult) (now : Int) : List Purchase :=
  if priceMeetsTargetCheck sku r then
    if autoPurchaseGate sku then
      triggerAutoPurchase ledger sku w (r.price.getD 0) now
    else ledger
  else ledger

/-- Ledger effect of `scrapeSingleProduct`: `processScrapingResult` is invoked
only when the scrape succeeded. -/
def handleScrapeResultLedger (ledger : List Purchase) (sku : SKU) (w : Website)
    (r : ScrapeResult) (now : Int) : List Purchase :=
  if r.success then processScrapingResultLedger ledger sku w r now else ledger

/-- Number of ledger entries for one (item, retailer) pair.  The Purchase
schema has no `rejected` status, so every saved record is a non-rejected
purchase. -/
def countForPair (ledger : List Purchase) (skuId : Str) (w : Website) : Nat :=
  (ledger.filter (fun p => p.skuId = skuId ∧ p.website = w)).length

/-! ## Purchase executor state machine (basePurchaser.js, PurchaseManager) -/

/-- The mutation `processPurchase` applies before executing an attempt:
`purchase.status = 'processing'; purchase.attemptInfo.lastAttempt = new Date()`.
No other field is touched; in particular `attemptNumber` is left unchanged. -/
def startProcessing (p : Purchase) (now : Int) : Purchase :=
  { p with status := .processing, lastAttempt := now }

/-- Embedding of `PurchaseManager.handlePurchaseError`: append an error record (severity
`high`, code `PURCHASE_FAILED`), increment `attemptNumber`, then set status
`failed` when the incremented count exceeds `maxAttempts`, else `pending`. -/
def handlePurchaseError (p : Purchase) (msg : Str) (now : Int) : Purchase :=
  let q : Purchase := { p with
    errors := p.errors ++
      [{ message := msg, timestamp := now,
         errorCode := "PURCHASE_FAILED".data, severity := "high".data }]
    attemptNumber := p.attemptNumber + 1 }
  if q.attemptNumber > q.maxAttempts then { q with status := .failed }
  else { q with status := .pending }

/-- Embedding of `PurchaseManager.handlePurchaseSuccess`: status becomes `success`. -/
def handlePurchaseSuccess (p : Purchase) : Purchase :=
  { p with status := .success }

/-- The mongo filter of `processPendingPurchases`:
`{ status: 'pending', 'attemptInfo.attemptNumber': { $lte: 3 } }`.
It does not consult `lastAttempt`. -/
def pendingQuery (p : Purchase) : Bool :=
  p.status = .pending ∧ p.attemptNumber ≤ 3

/-- The mongo filter of `retryFailedPurchases`: status `pending`,
`attemptNumber` between 2 and 3, and `lastAttempt` older than
`Date.now() - 10 * 60 * 1000` (a 600000 ms cooldown). -/
def retryQuery (p : Purchase) (now : Int) : Bool :=
  p.status = .pending ∧ 2 ≤ p.attemptNumber ∧ p.attemptNumber ≤ 3 ∧
    p.lastAttempt < now - 600000

/-- Embedding of `PurchaseManager.cancelPurchase` on one purchase document: throws for a
purchase already `success` or `cancelled`, otherwise sets status `cancelled`. -/
def cancelPurchase (p : Purchase) : Except Str Purchase :=
  if p.status = .success ∨ p.status = .cancelled then
    .error "Cannot cancel completed or already cancelled purchase".data
  else
    .ok { p with status := .cancelled }

/-- Browser-session state of a `BasePurchaser` instance: the `isCancelled`
flag and whether the puppeteer browser is open. -/
structure PurchaserState where
  isCancelled : Bool
  browserOpen : Bool
  deriving DecidableEq, Repr

/-- Embedding of `BasePurchaser.cancel`: sets `isCancelled = true` and closes the browser
(releasing the held browser resource). -/
def purchaserCancel (_b : PurchaserState) : PurchaserState :=
  { isCancelled := true, browserOpen := false }

/-- The cooperative cancellation checkpoint shared by `randomDelay`,
`navigateWithRetry`, `fillField`, `clickWithRetry` and `waitForNavigation`:
`if (this.isCancelled) throw new Error('Purchase cancelled')`. -/
def checkpoint (b : PurchaserState) : Except Str Unit :=
  if b.isCancelled then .error "Purchase cancelled".data else .ok ()

/-! ## Result cache (scraperManager.js)

`processScrapingResult` stores each result under the string key
`` `${sku._id}_${website.name}` `` in the `results` Map, and `getResults`
recovers the pair by `key.split('_')`, reading the first two fragments. -/

/-- A cached entry: the scrape result together with the `sku`, `website` and
`timestamp` fields that `processScrapingResult` spreads into the stored
object. -/
structure CachedResult where
  result : ScrapeResult
  sku : Str
  website : Str
  timestamp : Int
  deriving DecidableEq, Repr

/-- The cache: the `results` Map of ScraperManager, keys in insertion order. -/
abbrev Cache := List (Str × CachedResult)

/-- The cache key `` `${sku._id}_${website.name}` ``. -/
def makeKey (skuId website : Str) : Str := skuId ++ '_' :: website

/-- JavaScript `Map.prototype.set`: replace the value in place when the key
exists, else append the new entry. -/
def mapSet (m : Cache) (k : Str) (v : CachedResult) : Cache :=
  match m with
  | [] => [(k, v)]
  | (k', v') :: rest =>
      if k' = k then (k, v) :: rest else (k', v') :: mapSet rest k v

/-- The cache write of `processScrapingResult`. -/
def cachePut (m : Cache) (skuId website : Str) (v : CachedResult) : Cache :=
  mapSet m (makeKey skuId website) v

/-- JavaScript `key.split('_')` for a single-character separator. -/
def splitUnd : Str → List Str
  | [] => [[]]
  | c :: cs =>
      let r := splitUnd cs
      if c = '_' then [] :: r
      else
        match r with
        | [] => [[c]]
        | s :: rest => (c :: s) :: rest

/-- The destructuring `const [resultSkuId, resultWebsite] = key.split('_')`:
the second component is `undefined` (here `none`) when the key has no
underscore. -/
def keyParts (k : Str) : Str × Option Str :=
  match splitUnd k with
  | a :: b :: _ => (a, some b)
  | [a] => (a, none)
  | [] => ([], none)

/-- The per-entry filter of `getResults`:
`resultSkuId === skuId && (!websiteName || resultWebsite === websiteName)`. -/
def entryMatches (skuId : Str) (websiteName : Option Str) (k : Str) : Bool :=
  let parts := keyParts k
  decide (parts.1 = skuId) &&
    match websiteName with
    | none => true
    | some w => decide (parts.2 = some w)

/-- Embedding of `ScraperManager.getResults`: all cached values whose key splits back to
the requested sku (and website, when one is given). -/
def getResults (m : Cache) (skuId : Str) (websiteName : Option Str) :
    List CachedResult :=
  (m.filter (fun e => entryMatches skuId websiteName e.1)).map Prod.snd

/-- A string free of the `'_'` separator, as is the case for mongo ObjectId
hex strings and for every retailer name in the `website.name` enum. -/
def noUnd (s : Str) : Prop := '_' ∉ s

/-- Well-formed cache: every key was built by `makeKey` from separator-free
fragments, and keys are distinct (as in a Map). -/
def WFCache (m : Cache) : Prop :=
  (∀ e ∈ m, ∃ a b, noUnd a ∧ noUnd b ∧ e.1 = makeKey a b) ∧
    (m.map Prod.fst).Nodup

/-! ## Executor concurrency model (basePurchaser.js, PurchaseManager)

`processPendingPurchases` runs on a 30-second cron without awaiting the
previous tick, so ticks interleave at their `await` points.  One tick is a
task stepping through atomic blocks:

  1. the synchronous capacity check `activePurchases.size >= 3` together
     with the limit computation `3 - activePurchases.size` (both happen
     before the first `await`);
  2. the resumption of `await Purchase.find(...)`, which yields the pending
     purchases visible at that moment, in creation order, truncated to the
     recorded limit;
  3. for each fetched purchase, `processPurchase`: first the synchronous
     purchaser lookup (throwing, and thus diverting into
     `handlePurchaseError`, when the website has no registered purchaser),
     then the `await save()` that commits `status = 'processing'` and
     `lastAttempt`;
  4. the continuation that inserts into `activePurchases` and starts
     `await purchaser.executePurchase(...)`;
  5. the completion handler (`handlePurchaseSuccess`/`handlePurchaseError`)
     and the `finally` removal from `activePurchases`.

The shared state is the purchase collection (addressed by creation index)
plus the `activePurchases` map; each block is atomic, and distinct blocks of
distinct ticks may interleave arbitrarily. -/

/-- The `maxConcurrentPurchases` field of PurchaseManager. -/
def maxConcurrentPurchases : Nat := 3

/-- Result of one `executePurchase` call, as consumed by `processPurchase`. -/
inductive Outcome
  | ok
  | err (msg : Str)
  deriving DecidableEq, Repr

/-- Shared mutable state of the executor: the Purchase collection and the
ids held in `activePurchases`. -/
structure ExecState where
  db : List Purchase
  active : List Nat
  deriving DecidableEq, Repr

/-- Program counter of one `processPendingPurchases` tick. -/
inductive TickTask
  | idle
  | passed (limit : Nat)
  | gotList (ids : List Nat)
  | marked (id : Nat) (rest : List Nat)
  | running (id : Nat) (rest : List Nat)
  | done
  deriving DecidableEq, Repr

/-- Ids of purchases matching the pending query, in creation (index) order,
as returned by the `find(...).sort({createdAt: 1})` of
`processPendingPurchases`. -/
def pendingIds (db : List Purchase) : List Nat :=
  (db.enum.filter (fun e => pendingQuery e.2)).map Prod.fst

/-- Apply an update to the purchase at one index of the collection. -/
def updateAt (db : List Purchase) (i : Nat) (f : Purchase → Purchase) :
    List Purchase :=
  match db[i]? with
  | some p => db.set i (f p)
  | none => db

/-- The purchaser registry of the PurchaseManager constructor: only
`target`, `bestbuy` and `pokemoncenter` have a purchaser instance. -/
def hasPurchaser : Website → Bool
  | .target => true
  | .bestbuy => true
  | .pokemoncenter => true
  | _ => false

/-- One atomic block of a `processPendingPurchases` tick, from the state `s`
of the shared stores.  `o` is the outcome `executePurchase` reports when the
block is the completion handler.  Picking up a fetched purchase follows
`processPurchase`: when the purchase's website has no registered purchaser,
it throws `No purchaser found for website: ...` before any mutation; the
loop of `processPendingPurchases` catches that error, feeds the message to
`handlePurchaseError`, and moves on to the next fetched purchase.
Otherwise the pickup commits `status = 'processing'` and `lastAttempt`. -/
def taskStep (s : ExecState) (t : TickTask) (o : Outcome) (now : Int) :
    ExecState × TickTask :=
  match t with
  | .idle =>
      if maxConcurrentPurchases ≤ s.active.length then (s, .done)
      else (s, .passed (maxConcurrentPurchases - s.active.length))
  | .passed limit => (s, .gotList ((pendingIds s.db).take limit))
  | .gotList [] => (s, .done)
  | .gotList (i :: rest) =>
      match s.db[i]? with
      | none => (s, .gotList rest)
      | some p =>
          if hasPurchaser p.website then
            ({ s with db := s.db.set i (startProcessing p now) },
              .marked i rest)
          else
            ({ s with db := s.db.set i (handlePurchaseError p
                "No purchaser found for website".data now) },
              .gotList rest)
  | .marked i rest => ({ s with active := s.active ++ [i] }, .running i rest)
  | .running i rest =>
      let f : Purchase → Purchase :=
        match o with
        | .ok => handlePurchaseSuccess
        | .err msg => (handlePurchaseError · msg now)
      ({ db := updateAt s.db i f, active := s.active.filter (· ≠ i) },
        .gotList rest)
  | .done => (s, .done)

/-- The executor system: shared stores plus the interleaved ticks. -/
structure ExecSys where
  shared : ExecState
  tasks : List TickTask
  deriving DecidableEq, Repr

/-- Run the next atomic block of the chosen task. -/
def execStep (sys : ExecSys) (choice : Nat × Outcome) (now : Int) : ExecSys :=
  match sys.tasks[choice.1]? with
  | none => sys
  | some t =>
      let r := taskStep sys.shared t choice.2 now
      { shared := r.1, tasks := sys.tasks.set choice.1 r.2 }

/-- Run a whole interleaving schedule. -/
def execRun (sys : ExecSys) (sched : List (Nat × Outcome)) (now : Int) :
    ExecSys :=
  sched.foldl (fun acc c => execStep acc c now) sys

/-- Number of Purchases currently in status `processing`. -/
def countProcessing (db : List Purchase) : Nat :=
  (db.filter (fun p => p.status = .processing)).length

/-! ## Scheduler tick overlap model (scraperManager.js)

`start()` registers `cron.schedule('*/5 * * * *', () => {
this.scrapeByPriority('high') })` and similarly for the other tiers: the
callback fires the async `scrapeByPriority` without awaiting it, so a new
tick can become due while an earlier one is still executing.
`scrapeByPriority` begins with `if (!this.isRunning) return;` and consults
no other state before doing its work; the ScraperManager instance holds no
record of an in-flight tick. -/

/-- Priority tiers of the scraping scheduler. -/
inductive Priority
  | high
  | medium
  | low
  deriving DecidableEq, Repr

/-- Lifecycle of one scheduled tick of `scrapeByPriority`. -/
inductive TickState
  | due
  | executing
  | finished
  | skipped
  deriving DecidableEq, Repr

/-- The ScraperManager state read by the tick guard: only `isRunning`. -/
structure ScraperSched where
  isRunning : Bool
  deriving DecidableEq, Repr

/-- One tick of a tier together with its lifecycle state. -/
structure TierTick where
  tier : Priority
  state : TickState
  deriving DecidableEq, Repr

/-- Entry of `scrapeByPriority` for a due tick: the guard
`if (!this.isRunning) return;` skips exactly when the manager is stopped;
otherwise the tick starts executing. -/
def tickStart (m : ScraperSched) (t : TickState) : TickState :=
  match t with
  | .due => if m.isRunning then .executing else .skipped
  | s => s

/-- Completion of an executing tick. -/
def tickFinish (t : TickState) : TickState :=
  match t with
  | .executing => .finished
  | s => s

/-- The scheduler system: the manager plus all fired ticks. -/
structure SchedSys where
  mgr : ScraperSched
  ticks : List TierTick
  deriving DecidableEq, Repr

/-- One scheduling event: start (`true`) or finish (`false`) the chosen
tick. -/
def schedStep (sys : SchedSys) (choice : Nat × Bool) : SchedSys :=
  match sys.ticks[choice.1]? with
  | none => sys
  | some tk =>
      let st :=
        if choice.2 then tickStart sys.mgr tk.state else tickFinish tk.state
      { sys with ticks := sys.ticks.set choice.1 { tk with state := st } }

/-- Run a sequence of scheduling events. -/
def schedRun (sys : SchedSys) (sched : List (Nat × Bool)) : SchedSys :=
  sched.foldl schedStep sys

/-- Ticks of one tier currently executing. -/
def executingOfTier (sys : SchedSys) (pr : Priority) : Nat :=
  (sys.ticks.filter (fun tk => tk.tier = pr ∧ tk.state = .executing)).length

/-! ## Automated purchase bot (automatedPurchaseBot.js) -/

/-- Market observation returned by `getMarketPrice`: price, stock, and
whether the data came from real scraping (`realData`) or from the simulation
fallback (`simulated`). -/
structure MarketData where
  price : ℚ
  inStock : Bool
  realData : Bool
  simulated : Bool
  deriving DecidableEq, Repr

/-- JavaScript `toFixed(2)` on a non-negative price: rounding to cents. -/
def toFixed2 (q : ℚ) : ℚ := (⌊q * 100 + 1 / 2⌋ : ℚ) / 100

/-- Embedding of `simulateMarketPrice`: with probability 0.7 a good deal in
`[0.8 * target, target]`, otherwise a price in `[target, max]`.  The random
draws are explicit inputs: `isGoodDeal` is the 70% coin and `u ∈ [0, 1]` the
uniform draw. -/
def simulateMarketPrice (targetPrice maxPrice : ℚ) (isGoodDeal : Bool)
    (u : ℚ) : ℚ :=
  if isGoodDeal then
    toFixed2 (u * (targetPrice - targetPrice * (8 / 10)) +
      targetPrice * (8 / 10))
  else
    toFixed2 (u * (maxPrice - targetPrice) + targetPrice)

/-- Embedding of `simulateMarketData`: simulated price plus an 80%-chance stock flag
(`stockDraw` is the explicit random draw `Math.random() > 0.2`); the result
is marked `realData: false, simulated: true`. -/
def simulateMarketData (targetPrice maxPrice : ℚ) (isGoodDeal : Bool)
    (u : ℚ) (stockDraw : Bool) : MarketData :=
  { price := simulateMarketPrice targetPrice maxPrice isGoodDeal u
    inStock := stockDraw
    realData := false
    simulated := true }

/-- Embedding of `getMarketPrice`: when real scraping is enabled and the live probe
returns `success` with a truthy price, use the scraped data (`realData:
true`); in every other case — scraping disabled, the probe reporting
failure or a null/zero price, or the probe throwing (`probe = none`) — fall
back to `simulateMarketData`. -/
def getMarketPrice (realScrapingEnabled : Bool) (probe : Option ScrapeResult)
    (targetPrice maxPrice : ℚ) (isGoodDeal : Bool) (u : ℚ)
    (stockDraw : Bool) : MarketData :=
  if realScrapingEnabled then
    match probe with
    | some r =>
        if r.success && decide (r.price ≠ some 0) && decide (r.price ≠ none)
        then
          { price := r.price.getD 0, inStock := r.inStock, realData := true,
            simulated := false }
        else simulateMarketData targetPrice maxPrice isGoodDeal u stockDraw
    | none => simulateMarketData targetPrice maxPrice isGoodDeal u stockDraw
  else simulateMarketData targetPrice maxPrice isGoodDeal u stockDraw

/-- The ledger record built by `executeAutomatedPurchase`: saved directly
with `status: 'success'`, `quantity: 1`, `total: price`; no purchaser is
invoked and the record never passes through `pending` or `processing`. -/
structure BotPurchase where
  status : PStatus
  price : ℚ
  quantity : Nat
  total : ℚ
  automatedPurchase : Bool
  realScraping : Bool
  deriving DecidableEq, Repr

/-- Embedding of `AutomatedPurchaseBot.executeAutomatedPurchase`: constructs the record
and appends it to the test-storage ledger via `addTestPurchase`. -/
def executeAutomatedPurchase (price : ℚ) (md : MarketData) : BotPurchase :=
  { status := .success
    price := price
    quantity := 1
    total := price
    automatedPurchase := true
    realScraping := md.realData }

/-! ## Concrete fixtures used by counterexamples and witnesses -/

/-- A tracked item with target price 10, auto-purchase enabled and
confirmation not required. -/
def skuA : SKU :=
  { id := ['a']
    targetPrice := 10
    maxPrice := 35
    purchaseSettings :=
      { maxQuantity := 1, autoPurchase := true, requireConfirmation := false } }

/-- A successful in-stock probe whose observed price is exactly 0. -/
def freeResult : ScrapeResult :=
  { success := true, price := some 0, inStock := true }

/-- Ledger after one purchase intent for `(skuA, walmart)`. -/
def ledgerOnce : List Purchase := triggerAutoPurchase [] skuA .walmart 20 0

/-- Ledger after a second intent for the same pair, submitted while the
first Purchase is still pending. -/
def ledgerTwice : List Purchase :=
  triggerAutoPurchase ledgerOnce skuA .walmart 20 1

/-- A fresh Purchase document for the trace fixtures. -/
def basePurchase : Purchase := newPurchase ['a'] .walmart 20 1 0

/-- First failed attempt: picked up at time 10, error at time 11. -/
def failTrace1 : Purchase :=
  handlePurchaseError (startProcessing basePurchase 10) "e1".data 11

/-- Second failed attempt: picked up at time 20, error at time 21. -/
def failTrace2 : Purchase :=
  handlePurchaseError (startProcessing failTrace1 20) "e2".data 21

/-- Third failed attempt: picked up at time 30, error at time 31; this is
the attempt that reaches the ceiling. -/
def failTrace3 : Purchase :=
  handlePurchaseError (startProcessing failTrace2 30) "e3".data 31

/-- A fresh Purchase for a website with a registered purchaser (`target`),
so that the executor really does carry it into `processing`. -/
def targetPurchase : Purchase := newPurchase ['a'] .target 20 1 0

/-- Executor system holding only `targetPurchase`, with one
`processPendingPurchases` tick about to run. -/
def pickupInit : ExecSys :=
  { shared := { db := [targetPurchase], active := [] }
    tasks := [.idle] }

/-- A target purchase whose single attempt failed at time 1000 and that
returned to `pending` with `attemptNumber = 2`. -/
def cooledPurchase : Purchase :=
  handlePurchaseError (startProcessing targetPurchase 1000) "e".data 1000

/-- Executor system with four pending target purchases and four overlapping
`processPendingPurchases` ticks about to run. -/
def overCapacityInit : ExecSys :=
  { shared := { db := [targetPurchase, targetPurchase, targetPurchase,
                  targetPurchase]
                active := [] }
    tasks := [.idle, .idle, .idle, .idle] }

/-- Interleaving schedule for `overCapacityInit`: tick 0 marks purchase 0
and activates it; tick 1 marks purchase 1 and activates it; tick 2 marks
purchase 2 (its activation continuation has not yet run); tick 3 then
passes the capacity check — it still observes only two active purchases —
and marks purchase 3. -/
def overCapacitySched : List (Nat × Outcome) :=
  [(0, .ok), (0, .ok), (0, .ok), (0, .ok),
   (1, .ok), (1, .ok), (1, .ok), (1, .ok),
   (2, .ok), (2, .ok), (2, .ok),
   (3, .ok), (3, .ok), (3, .ok)]

/-- Executor system holding only `cooledPurchase`, with one tick about to
run at time 1000 — the very instant of the failed attempt. -/
def cooldownInit : ExecSys :=
  { shared := { db := [cooledPurchase], active := [] }
    tasks := [.idle] }

/-- Scheduler with two due ticks of the `high` tier while running. -/
def overlapInit : SchedSys :=
  { mgr := { isRunning := true }
    ticks := [{ tier := .high, state := .due },
              { tier := .high, state := .due }] }

/-- A cached probe value used by the cache round-trip witness. -/
def sampleCached : CachedResult :=
  { result := { success := true, price := some 20, inStock := true }
    sku := ['a']
    website := ['b']
    timestamp := 0 }

/-! ## Cache lemmas -/

/-- Splitting a separator-free string yields the string itself. -/
theorem splitUnd_noUnd (s : Str) (h : noUnd s) : splitUnd s = [s] := by
  induction s with
  | nil => rfl
  | cons c cs ih =>
      have hc : c ≠ '_' := fun hc => h (hc ▸ List.mem_cons_self c cs)
      have hcs : noUnd cs := fun hm => h (List.mem_cons_of_mem c hm)
      simp [splitUnd, ih hcs, hc]

/-- Splitting a joined key peels off the separator-free first fragment. -/
theorem splitUnd_append (i r : Str) (hi : noUnd i) :
    splitUnd (i ++ '_' :: r) = i :: splitUnd r := by
  induction i with
  | nil => simp [splitUnd]
  | cons c cs ih =>
      have hc : c ≠ '_' := fun hc => hi (hc ▸ List.mem_cons_self c cs)
      have hcs : noUnd cs := fun hm => hi (List.mem_cons_of_mem c hm)
      simp [splitUnd, ih hcs, hc]

/-- The function `keyParts` inverts `makeKey` on separator-free fragments. -/
theorem keyParts_makeKey (i r : Str) (hi : noUnd i) (hr : noUnd r) :
    keyParts (makeKey i r) = (i, some r) := by
  simp [keyParts, makeKey, splitUnd_append i r hi, splitUnd_noUnd r hr]

/-- A well-formed key matches the lookup for `(i, r)` exactly when it was
built from `(i, r)`. -/
theorem entryMatches_makeKey (a b i r : Str) (ha : noUnd a) (hb : noUnd b) :
    entryMatches i (some r) (makeKey a b) = true ↔ (a = i ∧ b = r) := by
  simp [entryMatches, keyParts_makeKey a b ha hb]

/-- Every entry of `mapSet m k v` is an old entry or the new one. -/
theorem mapSet_mem_entries (m : Cache) (k : Str) (v : CachedResult)
    (e : Str × CachedResult) (he : e ∈ mapSet m k v) :
    e ∈ m ∨ e = (k, v) := by
  induction m with
  | nil => simpa [mapSet] using he
  | cons hd tl ih =>
      obtain ⟨a, b⟩ := hd
      by_cases hk : a = k
      · rw [show mapSet ((a, b) :: tl) k v = (k, v) :: tl by
          simp [mapSet, hk]] at he
        rcases List.mem_cons.mp he with h | h
        · exact Or.inr h
        · exact Or.inl (List.mem_cons_of_mem (a, b) h)
      · rw [show mapSet ((a, b) :: tl) k v = (a, b) :: mapSet tl k v by
          simp [mapSet, hk]] at he
        rcases List.mem_cons.mp he with h | h
        · exact Or.inl (h ▸ List.mem_cons_self (a, b) tl)
        · rcases ih h with h' | h'
          · exact Or.inl (List.mem_cons_of_mem (a, b) h')
          · exact Or.inr h'

/-- Every key of `mapSet m k v` is an old key or `k`. -/
theorem mapSet_mem_keys (m : Cache) (k : Str) (v : CachedResult) (x : Str)
    (hx : x ∈ (mapSet m k v).map Prod.fst) :
    x ∈ m.map Prod.fst ∨ x = k := by
  rcases List.mem_map.mp hx with ⟨e, he, hex⟩
  rcases mapSet_mem_entries m k v e he with h | h
  · exact Or.inl (hex ▸ List.mem_map_of_mem Prod.fst h)
  · exact Or.inr (by rw [← hex, h])

/-- The function `mapSet` keeps the keys of a Map distinct. -/
theorem mapSet_nodup (m : Cache) (k : Str) (v : CachedResult)
    (h : (m.map Prod.fst).Nodup) : ((mapSet m k v).map Prod.fst).Nodup := by
  induction m with
  | nil => simp [mapSet]
  | cons hd tl ih =>
      obtain ⟨a, b⟩ := hd
      rw [List.map_cons, List.nodup_cons] at h
      by_cases hk : a = k
      · rw [show mapSet ((a, b) :: tl) k v = (k, v) :: tl by
          simp [mapSet, hk]]
        rw [List.map_cons, List.nodup_cons]
        exact ⟨hk ▸ h.1, h.2⟩
      · rw [show mapSet ((a, b) :: tl) k v = (a, b) :: mapSet tl k v by
          simp [mapSet, hk]]
        rw [List.map_cons, List.nodup_cons]
        refine ⟨fun hx => ?_, ih h.2⟩
        rcases mapSet_mem_keys tl k v a hx with h' | h'
        · exact h.1 h'
        · exact hk h'

/-- A well-formed key distinct from `makeKey i r` never matches the lookup
for `(i, r)`. -/
theorem entryMatches_ne (a b i r : Str) (ha : noUnd a) (hb : noUnd b)
    (hne : makeKey a b ≠ makeKey i r) :
    entryMatches i (some r) (makeKey a b) = false := by
  rw [Bool.eq_false_iff]
  intro hmatch
  rcases (entryMatches_makeKey a b i r ha hb).mp hmatch with ⟨hai, hbr⟩
  exact hne (by rw [hai, hbr])

/-- In a well-formed cache, no existing key other than `makeKey i r` matches
the lookup for `(i, r)`. -/
theorem getResults_no_match (m : Cache) (i r : Str)
    (hkeys : ∀ e ∈ m, ∃ a b, noUnd a ∧ noUnd b ∧ e.1 = makeKey a b)
    (hout : makeKey i r ∉ m.map Prod.fst) :
    getResults m i (some r) = [] := by
  induction m with
  | nil => rfl
  | cons hd tl ih =>
      have hhd := hkeys hd (List.mem_cons_self hd tl)
      rcases hhd with ⟨a, b, ha, hb, hk⟩
      have hmem : hd.1 ∈ (hd :: tl).map Prod.fst :=
        List.mem_map_of_mem Prod.fst (List.mem_cons_self hd tl)
      have hne : makeKey a b ≠ makeKey i r := by
        intro hkey
        exact hout (by rw [← hkey, ← hk]; exact hmem)
      have hmatch : entryMatches i (some r) hd.1 = false := by
        rw [hk]; exact entryMatches_ne a b i r ha hb hne
      rw [getResults, List.filter_cons, hmatch]
      simp only [Bool.false_eq_true, if_false]
      exact ih (fun e he => hkeys e (List.mem_cons_of_mem hd he))
        (fun hx => hout (List.mem_cons_of_mem hd.1 hx))

/-- The function `cachePut` preserves cache well-formedness. -/
theorem cachePut_wf (m : Cache) (i r : Str) (v : CachedResult)
    (hwf : WFCache m) (hi : noUnd i) (hr : noUnd r) :
    WFCache (cachePut m i r v) := by
  constructor
  · intro e he
    rcases mapSet_mem_entries m (makeKey i r) v e he with h | h
    · exact hwf.1 e h
    · exact ⟨i, r, hi, hr, by rw [h]⟩
  · exact mapSet_nodup m (makeKey i r) v hwf.2

/-- Looking up `(i, r)` after writing under `(i, r)` returns exactly the
written record, in a well-formed cache. -/
theorem getResults_cachePut (m : Cache) (i r : Str) (v : CachedResult)
    (hwf : WFCache m) (hi : noUnd i) (hr : noUnd r) :
    getResults (cachePut m i r v) i (some r) = [v] := by
  have hself : entryMatches i (some r) (makeKey i r) = true :=
    (entryMatches_makeKey i r i r hi hr).mpr ⟨rfl, rfl⟩
  rcases hwf with ⟨hkeys, hnodup⟩
  induction m with
  | nil =>
      rw [cachePut, mapSet, getResults, List.filter_cons]
      simp [hself]
  | cons hd tl ih =>
      obtain ⟨a, b⟩ := hd
      have hhd := hkeys (a, b) (List.mem_cons_self (a, b) tl)
      rcases hhd with ⟨a', b', ha', hb', hk⟩
      simp only at hk
      rw [List.map_cons, List.nodup_cons] at hnodup
      by_cases hak : a = makeKey i r
      · have htl : getResults tl i (some r) = [] := by
          refine getResults_no_match tl i r
            (fun e he => hkeys e (List.mem_cons_of_mem (a, b) he)) ?_
          exact hak ▸ hnodup.1
        rw [show cachePut ((a, b) :: tl) i r v = (makeKey i r, v) :: tl by
          simp [cachePut, mapSet, hak]]
        rw [getResults] at htl ⊢
        rw [List.filter_cons]
        simp [hself, htl]
      · rw [show cachePut ((a, b) :: tl) i r v =
            (a, b) :: cachePut tl i r v by simp [cachePut, mapSet, hak]]
        have hno : entryMatches i (some r) a = false := by
          rw [hk]
          exact entryMatches_ne a' b' i r ha' hb' (by rw [← hk]; exact hak)
        rw [getResults, List.filter_cons]
        simp only [hno, Bool.false_eq_true, if_false]
        exact ih (fun e he => hkeys e (List.mem_cons_of_mem (a, b) he))
          hnodup.2

/-! ## Claim theorems -/

/-- Unfolding of `handlePurchaseError` with the let-bound intermediate
record substituted. -/
theorem handlePurchaseError_def (p : Purchase) (msg : Str) (now : Int) :
    handlePurchaseError p msg now =
      if p.attemptNumber + 1 > p.maxAttempts then
        { p with
          errors := p.errors ++
            [{ message := msg, timestamp := now,
               errorCode := "PURCHASE_FAILED".data, severity := "high".data }]
          attemptNumber := p.attemptNumber + 1
          status := .failed }
      else
        { p with
          errors := p.errors ++
            [{ message := msg, timestamp := now,
               errorCode := "PURCHASE_FAILED".data, severity := "high".data }]
          attemptNumber := p.attemptNumber + 1
          status := .pending } := rfl

/-- C1 (corrected): the auto-purchase trigger fires iff the probe succeeded,
the product is in stock, a *non-null, non-zero* price at most the target was
observed, auto-purchase is enabled and confirmation is not required; the
ledger gains exactly one Purchase when the trigger fires and none otherwise.
(The claim as stated fails at an observed price of exactly 0, which the
JavaScript truthiness test `result.price && ...` treats as missing.) -/
theorem C1_buy_condition_amended (sku : SKU) (r : ScrapeResult) :
    (triggersAutoPurchase sku r = true ↔
      r.success = true ∧ r.inStock = true ∧
        (∃ p : ℚ, r.price = some p ∧ p ≠ 0 ∧ p ≤ sku.targetPrice) ∧
        sku.purchaseSettings.autoPurchase = true ∧
        sku.purchaseSettings.requireConfirmation = false) ∧
    ∀ (ledger : List Purchase) (w : Website) (now : Int),
      (handleScrapeResultLedger ledger sku w r now).length =
        ledger.length + (if triggersAutoPurchase sku r then 1 else 0) := by
  constructor
  · rcases r with ⟨s, pr, st⟩
    cases pr with
    | none =>
        simp [triggersAutoPurchase, priceMeetsTargetCheck, autoPurchaseGate]
    | some p =>
        simp only [triggersAutoPurchase, priceMeetsTargetCheck,
          autoPurchaseGate, Bool.and_eq_true, Bool.not_eq_true',
          decide_eq_true_eq, Option.some.injEq]
        aesop
  · intro ledger w now
    by_cases hs : r.success
    · by_cases hpc : priceMeetsTargetCheck sku r
      · by_cases hg : autoPurchaseGate sku
        · simp [handleScrapeResultLedger, processScrapingResultLedger,
            triggerAutoPurchase, triggersAutoPurchase, hs, hpc, hg]
        · simp [handleScrapeResultLedger, processScrapingResultLedger,
            triggersAutoPurchase, hs, hpc, hg]
      · simp [handleScrapeResultLedger, processScrapingResultLedger,
          triggersAutoPurchase, hs, hpc]
    · simp [handleScrapeResultLedger, triggersAutoPurchase, hs]

/-- C1 counterexample: a successful, in-stock probe observing price 0 on an
item with target price 10, auto-purchase on and confirmation off satisfies
every condition of the claimed `buy` verdict, yet the code does not trigger
a purchase and writes nothing to the ledger. -/
theorem C1_zero_price_counterexample :
    freeResult.success = true ∧ freeResult.inStock = true ∧
    freeResult.price = some 0 ∧ (0 : ℚ) ≤ skuA.targetPrice ∧
    skuA.purchaseSettings.autoPurchase = true ∧
    skuA.purchaseSettings.requireConfirmation = false ∧
    triggersAutoPurchase skuA freeResult = false ∧
    handleScrapeResultLedger [] skuA .walmart freeResult 0 = [] := by
  refine ⟨rfl, rfl, rfl, by norm_num [skuA], rfl, rfl, ?_, ?_⟩
  · decide
  · decide

/-- C2 (corrected): `triggerAutoPurchase` performs no duplicate
suppression — every submitted intent appends one more (pending, hence
non-rejected) Purchase for its (item, retailer) pair, whatever the ledger
already contains. -/
theorem C2_no_duplicate_suppression (ledger : List Purchase) (sku : SKU)
    (w : Website) (price : ℚ) (now : Int) :
    countForPair (triggerAutoPurchase ledger sku w price now) sku.id w =
      countForPair ledger sku.id w + 1 ∧
    (newPurchase sku.id w price sku.purchaseSettings.maxQuantity now).status
      = .pending := by
  refine ⟨?_, rfl⟩
  simp [countForPair, triggerAutoPurchase, newPurchase, List.filter_append]

/-- C2 counterexample: a second intent for `(skuA, walmart)` submitted while
the first Purchase is still pending is not rejected: the ledger then holds
two Purchases for the pair, both pending (the schema has no rejected
status). -/
theorem C2_duplicate_intent_counterexample :
    (∀ p ∈ ledgerOnce, p.status = .pending) ∧
    countForPair ledgerTwice skuA.id .walmart = 2 ∧
    (∀ p ∈ ledgerTwice, p.status = .pending) := by
  refine ⟨?_, ?_, ?_⟩ <;> decide

/-- C3 (corrected): a failed attempt increments `attemptNumber`, so starting
from `attemptNumber ≤ maxAttempts` the count stays at most
`maxAttempts + 1`, and the status becomes `failed` exactly when the
incremented count exceeds `maxAttempts` (i.e. equals `maxAttempts + 1`). A
failed purchase is never selected again by the pending or retry queries,
but it is not immune to cancel: `cancelPurchase` moves it to `cancelled`. -/
theorem C3_attempt_bound_amended (p : Purchase) (msg : Str) (now : Int)
    (h : p.attemptNumber ≤ p.maxAttempts) :
    (handlePurchaseError p msg now).attemptNumber ≤ p.maxAttempts + 1 ∧
    ((handlePurchaseError p msg now).status = .failed ↔
      (handlePurchaseError p msg now).attemptNumber = p.maxAttempts + 1) ∧
    (∀ q : Purchase, q.status = .failed →
      pendingQuery q = false ∧ ∀ t : Int, retryQuery q t = false) ∧
    (∀ q : Purchase, q.status = .failed →
      cancelPurchase q = .ok { q with status := .cancelled }) := by
  refine ⟨?_, ?_, ?_, ?_⟩
  · rw [handlePurchaseError_def]
    split <;> simp <;> omega
  · rw [handlePurchaseError_def]
    split <;> simp <;> omega
  · intro q hq
    constructor
    · simp [pendingQuery, hq]
    · intro t
      simp [retryQuery, hq]
  · intro q hq
    simp [cancelPurchase, hq]

/-- C3 witness: a fresh purchase satisfies `attemptNumber ≤ maxAttempts`,
and one failed attempt keeps the count at most `maxAttempts + 1`. -/
theorem C3_attempt_bound_amended_witness :
    (handlePurchaseError basePurchase "e".data 1).attemptNumber ≤
      basePurchase.maxAttempts + 1 :=
  (C3_attempt_bound_amended basePurchase "e".data 1 (by decide)).1

/-- C3 counterexample: three consecutive failed attempts (each legally
picked up by the pending query) drive `attemptNumber` to 4 while
`maxAttempts = 3`, refuting `attemptCount ≤ maxAttempts`; and the resulting
`failed` purchase is then successfully cancelled, refuting "never changes
again (including cancel)". -/
theorem C3_attempt_overshoot_counterexample :
    pendingQuery basePurchase = true ∧ pendingQuery failTrace1 = true ∧
    pendingQuery failTrace2 = true ∧
    failTrace3.status = .failed ∧ failTrace3.maxAttempts = 3 ∧
    failTrace3.attemptNumber = 4 ∧ failTrace3.errors.length = 3 ∧
    cancelPurchase failTrace3 = .ok { failTrace3 with status := .cancelled }
    := by
  refine ⟨?_, ?_, ?_, ?_, ?_, ?_, ?_, rfl⟩ <;> decide

/-- C5 (corrected): the transition into `processing` sets the status and
stamps `lastAttemptTime` before execution begins, but leaves the attempt
count unchanged; `attemptNumber` is incremented only by the failure handler
after an attempt fails. -/
theorem C5_processing_transition_amended (p : Purchase) (now : Int)
    (msg : Str) :
    (startProcessing p now).status = .processing ∧
    (startProcessing p now).lastAttempt = now ∧
    (startProcessing p now).attemptNumber = p.attemptNumber ∧
    (handlePurchaseError p msg now).attemptNumber = p.attemptNumber + 1 := by
  refine ⟨rfl, rfl, rfl, ?_⟩
  simp only [handlePurchaseError]
  split <;> rfl

/-- C5 counterexample: a fresh pending purchase for `target` — a website
with a registered purchaser, so the pickup really happens — is carried by
the executor tick into `processing` with `attemptNumber` still 1, not 2:
the claimed increment on entering `processing` does not happen. -/
theorem C5_no_increment_counterexample :
    hasPurchaser targetPurchase.website = true ∧
    targetPurchase.status = .pending ∧ targetPurchase.attemptNumber = 1 ∧
    (startProcessing targetPurchase 5).status = .processing ∧
    (startProcessing targetPurchase 5).lastAttempt = 5 ∧
    (startProcessing targetPurchase 5).attemptNumber = 1 ∧
    ((execRun pickupInit [(0, .ok), (0, .ok), (0, .ok)] 5).shared.db.map
      Purchase.status) = [.processing] ∧
    ((execRun pickupInit [(0, .ok), (0, .ok), (0, .ok)] 5).shared.db.map
      Purchase.attemptNumber) = [1] := by
  refine ⟨?_, ?_, ?_, ?_, ?_, ?_, ?_, ?_⟩ <;> decide

/-- C6 (corrected): only the dedicated retry job enforces the 10-minute
(600000 ms) cooldown — any purchase it selects has been idle longer than the
cooldown — while the pending-processing query ignores `lastAttemptTime`
entirely. -/
theorem C6_retry_cooldown_amended (p : Purchase) (now : Int)
    (h : retryQuery p now = true) :
    600000 < now - p.lastAttempt ∧
    ∀ t : Int, pendingQuery { p with lastAttempt := t } = pendingQuery p := by
  constructor
  · simp only [retryQuery, decide_eq_true_eq] at h
    omega
  · intro t
    simp [pendingQuery]

/-- C6 witness: a purchase whose failed attempt is 999000 ms old is selected
by the retry query, and indeed more than the cooldown has elapsed. -/
theorem C6_retry_cooldown_amended_witness :
    600000 < (1000000 : Int) - cooledPurchase.lastAttempt :=
  (C6_retry_cooldown_amended cooledPurchase 1000000 (by decide)).1

/-- C6 counterexample: a target purchase (its website has a registered
purchaser) whose attempt failed at time 1000 and returned to `pending` is
selected by the pending query at the same instant (zero elapsed cooldown),
and the executor tick indeed moves it into `processing`: the 30-second
pending processor re-picks failed purchases with no cooldown at all. -/
theorem C6_cooldown_bypass_counterexample :
    hasPurchaser cooledPurchase.website = true ∧
    cooledPurchase.status = .pending ∧
    cooledPurchase.attemptNumber = 2 ∧
    cooledPurchase.lastAttempt = 1000 ∧
    retryQuery cooledPurchase 1000 = false ∧
    pendingQuery cooledPurchase = true ∧
    ((execRun cooldownInit [(0, .ok), (0, .ok), (0, .ok)]
        1000).shared.db.map Purchase.status) = [.processing] := by
  refine ⟨?_, ?_, ?_, ?_, ?_, ?_, ?_⟩ <;> decide

/-- C7 (confirmed): cancelling a `success` or `cancelled` purchase fails
with the invalid-state error (and, being a thrown error, changes nothing);
cancelling a `processing` purchase marks it `cancelled`, and the associated
`BasePurchaser.cancel` sets the cooperative `isCancelled` flag — making
every subsequent checkpoint abort — and closes the browser, releasing the
held resource. -/
theorem C7_cancel_semantics (p : Purchase) (b : PurchaserState) :
    ((p.status = .success ∨ p.status = .cancelled) →
      cancelPurchase p =
        .error "Cannot cancel completed or already cancelled purchase".data) ∧
    (p.status = .processing →
      cancelPurchase p = .ok { p with status := .cancelled }) ∧
    (purchaserCancel b).isCancelled = true ∧
    (purchaserCancel b).browserOpen = false ∧
    checkpoint (purchaserCancel b) = .error "Purchase cancelled".data := by
  refine ⟨?_, ?_, rfl, rfl, rfl⟩
  · intro h
    simp [cancelPurchase, h]
  · intro h
    simp [cancelPurchase, h]

/-- C7 witness: concrete instances of both cancel outcomes and of the
cooperative checkpoint abort. -/
theorem C7_cancel_semantics_witness :
    cancelPurchase (startProcessing basePurchase 5) =
      .ok { startProcessing basePurchase 5 with status := .cancelled } ∧
    checkpoint (purchaserCancel { isCancelled := false, browserOpen := true })
      = .error "Purchase cancelled".data ∧
    cancelPurchase (handlePurchaseSuccess basePurchase) =
      .error "Cannot cancel completed or already cancelled purchase".data := by
  have h1 := C7_cancel_semantics (startProcessing basePurchase 5)
    { isCancelled := false, browserOpen := true }
  have h2 := C7_cancel_semantics (handlePurchaseSuccess basePurchase)
    { isCancelled := false, browserOpen := true }
  exact ⟨h1.2.1 rfl, h1.2.2.2.2, h2.1 (Or.inl rfl)⟩

/-- C10 (confirmed): every record built by `executeAutomatedPurchase` enters
the ledger directly in terminal status `success` with quantity 1 and total
equal to the recorded price, never passing through `pending` or
`processing`; and whenever real scraping is disabled, or the live probe
throws, or it reports failure, `getMarketPrice` returns simulated
(randomly generated) market data, whose price is the simulated market
price. -/
theorem C10_bot_purchase_terminal (price : ℚ) (md : MarketData)
    (targetPrice maxPrice : ℚ) (g : Bool) (u : ℚ) (st : Bool)
    (probe : Option ScrapeResult) :
    (executeAutomatedPurchase price md).status = .success ∧
    (executeAutomatedPurchase price md).quantity = 1 ∧
    (executeAutomatedPurchase price md).total = price ∧
    (executeAutomatedPurchase price md).status ≠ .pending ∧
    (executeAutomatedPurchase price md).status ≠ .processing ∧
    (getMarketPrice false probe targetPrice maxPrice g u st).simulated
      = true ∧
    (getMarketPrice false probe targetPrice maxPrice g u st).realData
      = false ∧
    (getMarketPrice false probe targetPrice maxPrice g u st).price =
      simulateMarketPrice targetPrice maxPrice g u ∧
    (getMarketPrice true none targetPrice maxPrice g u st).simulated
      = true ∧
    (getMarketPrice true none targetPrice maxPrice g u st).realData
      = false ∧
    ∀ (pr : Option ℚ) (stk : Bool),
      (getMarketPrice true (some ⟨false, pr, stk⟩) targetPrice maxPrice
        g u st).simulated = true := by
  refine ⟨rfl, rfl, rfl, by simp [executeAutomatedPurchase],
    by simp [executeAutomatedPurchase], rfl, rfl, rfl, rfl, rfl, ?_⟩
  intro pr stk
  simp [getMarketPrice, simulateMarketData]

/-- C4 (corrected): the capacity bound is enforced only at tick start — a
tick beginning at or above `maxConcurrentPurchases` active purchases does
nothing at all (the shared state, and hence the number of `processing`
purchases and every still-pending intent, is untouched).  The check is
however separated from activation by suspension points, so overlapping
ticks can exceed the bound (see the counterexample). -/
theorem C4_capacity_check_amended (s : ExecState) (o : Outcome) (now : Int)
    (h : maxConcurrentPurchases ≤ s.active.length) :
    taskStep s .idle o now = (s, .done) ∧
    countProcessing ((taskStep s .idle o now).1.db) = countProcessing s.db
    := by
  constructor
  · simp [taskStep, h]
  · simp [taskStep, h]

/-- C4 witness: a tick starting with three active purchases terminates
without touching the shared state. -/
theorem C4_capacity_check_amended_witness :
    taskStep { db := [], active := [0, 1, 2] } .idle .ok 0 =
      ({ db := [], active := [0, 1, 2] }, .done) :=
  (C4_capacity_check_amended { db := [], active := [0, 1, 2] } .ok 0
    (by decide)).1

/-- C4 counterexample: four overlapping `processPendingPurchases` ticks over
four pending target purchases (each for a website with a registered
purchaser, so every pickup really commits `processing`), interleaved at
their `await` points.  Ticks 0 and 1
each mark and activate one purchase; tick 2 commits its `status =
'processing'` save but its activation continuation has not yet run; tick 3
then passes the capacity check (it observes only 2 active purchases) and
marks a fourth — leaving 4 > 3 = `maxConcurrentPurchases` purchases in
status `processing` at one instant. -/
theorem C4_capacity_exceeded_counterexample :
    maxConcurrentPurchases = 3 ∧
    countProcessing
      ((execRun overCapacityInit overCapacitySched 0).shared.db) = 4 ∧
    (execRun overCapacityInit overCapacitySched 0).shared.active.length = 2
    := by
  refine ⟨rfl, ?_, ?_⟩ <;> decide

/-- C8 (corrected): whether a due tick of `scrapeByPriority` runs is
determined solely by the manager's `isRunning` flag — while running, a due
tick always starts executing, whatever the states of the other ticks
(including an executing tick of the same tier); a tick is skipped only when
the manager is stopped. -/
theorem C8_tick_gate_amended (sys : SchedSys) (i : Nat) (tk : TierTick)
    (hrun : sys.mgr.isRunning = true) (hi : sys.ticks[i]? = some tk)
    (hdue : tk.state = .due) :
    (schedStep sys (i, true)).ticks[i]? =
      some { tk with state := .executing } ∧
    ∀ m : ScraperSched, tickStart m .due = .skipped → m.isRunning = false
    := by
  constructor
  · have hlen : i < sys.ticks.length := by
      rcases List.getElem?_eq_some_iff.mp hi with ⟨hl, _⟩
      exact hl
    simp only [schedStep, hi, tickStart, hdue, hrun, if_true]
    rw [List.getElem?_set_self]
    exact hlen
  · intro m hm
    by_cases hr : m.isRunning
    · simp [tickStart, hr] at hm
    · simpa using hr

/-- C8 witness: with the manager running and another `high` tick already
possible, the first due `high` tick starts executing. -/
theorem C8_tick_gate_amended_witness :
    (schedStep overlapInit (0, true)).ticks[0]? =
      some { tier := .high, state := .executing } :=
  (C8_tick_gate_amended overlapInit 0 { tier := .high, state := .due }
    rfl rfl rfl).1

/-- C8 counterexample: with the manager running, a second due tick of the
`high` tier fired while the first is still executing also starts executing —
two ticks of the same tier run concurrently and neither is skipped,
refuting "the new tick is skipped, not queued". -/
theorem C8_overlapping_ticks_counterexample :
    executingOfTier (schedRun overlapInit [(0, true)]) .high = 1 ∧
    executingOfTier (schedRun overlapInit [(0, true), (1, true)]) .high = 2 ∧
    (∀ tk ∈ (schedRun overlapInit [(0, true), (1, true)]).ticks,
      tk.state ≠ .skipped) := by
  refine ⟨?_, ?_, ?_⟩ <;> decide

/-- C9 (confirmed): in a well-formed cache (every key joined from
separator-free fragments, as holds for ObjectId hex ids and the retailer
name enum), a `put` under `(i, r)` followed by `getResults` for `(i, r)`
returns exactly the written record — in particular at most one live entry
per key — well-formedness is preserved, and a second `put` for the same key
fully replaces the first. -/
theorem C9_cache_roundtrip (m : Cache) (i r : Str) (v : CachedResult)
    (hwf : WFCache m) (hi : noUnd i) (hr : noUnd r) :
    getResults (cachePut m i r v) i (some r) = [v] ∧
    WFCache (cachePut m i r v) ∧
    ∀ v' : CachedResult,
      getResults (cachePut (cachePut m i r v') i r v) i (some r) = [v] := by
  refine ⟨getResults_cachePut m i r v hwf hi hr,
    cachePut_wf m i r v hwf hi hr, fun v' => ?_⟩
  exact getResults_cachePut (cachePut m i r v') i r v
    (cachePut_wf m i r v' hwf hi hr) hi hr

/-- C9 witness: round-trip through the empty cache at a concrete key. -/
theorem C9_cache_roundtrip_witness :
    getResults (cachePut [] ['a'] ['b'] sampleCached) ['a'] (some ['b']) =
      [sampleCached] :=
  (C9_cache_roundtrip [] ['a'] ['b'] sampleCached
    ⟨fun e he => absurd he (List.not_mem_nil e), List.nodup_nil⟩
    (by simp [noUnd]) (by simp [noUnd])).1

end Pokemon
